import Mathlib

/-!
Verification of the OpenSPP test-deployment manager against its design
specification.  The Python sources (src/models.py, src/database.py,
src/deployment_manager.py, src/git_cache.py, src/nginx_manager.py,
src/utils.py) are shallowly embedded: the persistent SQLite store becomes an
explicit `Store` value, external effects (git, docker, nginx, the invoke task
runner) become boolean oracles recording success or failure of each call, and
every function is translated control-flow point by control-flow point from the
Python.
-/

namespace OpenSPP

/-- Deployment status enum (models.DeploymentStatus). -/
inductive DeploymentStatus where
  | creating
  | running
  | stopped
  | error
  | updating
deriving DecidableEq

/-- The `.value` string of the status enum. -/
def statusValue : DeploymentStatus → String
  | .creating => "creating"
  | .running => "running"
  | .stopped => "stopped"
  | .error => "error"
  | .updating => "updating"

/-- A deployment record (models.Deployment).  The timestamp fields and the
derived `port_mappings` dictionary are not modelled; `dependency_versions` and
`modules_installed` play no role in the verified claims. -/
structure Deployment where
  id : String
  name : String
  tester_email : String
  openspp_version : String
  environment : String
  status : DeploymentStatus
  port_base : Int
  subdomain : String
  last_action : String
  notes : String
  auth_password : String
deriving DecidableEq

/-- A row of the `port_allocations` table (keyed by `port_base`). -/
structure PortAllocation where
  port_base : Int
  deployment_id : String
deriving DecidableEq

/-- The persistent SQLite store: the `deployments` table and the
`port_allocations` table (database.DeploymentDatabase). -/
structure Store where
  deployments : List Deployment
  port_allocations : List PortAllocation
deriving DecidableEq

/-- `SELECT * FROM deployments WHERE id = ?` (DeploymentDatabase.get_deployment). -/
def get_deployment (s : Store) (deployment_id : String) : Option Deployment :=
  s.deployments.find? (fun d => d.id == deployment_id)

/-- `INSERT OR REPLACE` of a deployment row, plus the `INSERT OR REPLACE` of its
port-allocation row when `port_base > 0` (DeploymentDatabase.save_deployment,
one committed transaction). -/
def save_deployment (s : Store) (d : Deployment) : Store :=
  { deployments := s.deployments.filter (fun r => r.id != d.id) ++ [d]
    port_allocations :=
      if d.port_base > 0 then
        s.port_allocations.filter (fun a => a.port_base != d.port_base)
          ++ [⟨d.port_base, d.id⟩]
      else s.port_allocations }

/-- `save_deployment` as seen by callers: the Python method catches database
errors, rolls the transaction back and returns False, and every caller in
deployment_manager.py ignores that return value.  `ok = false` is a failed
(rolled-back) save. -/
def db_save (ok : Bool) (s : Store) (d : Deployment) : Store :=
  if ok then save_deployment s d else s

/-- DeploymentDatabase.delete_deployment: if the deployment row exists, delete
its port-allocation rows and the deployment row in one committed transaction;
otherwise return False and change nothing. -/
def db_delete_deployment (s : Store) (deployment_id : String) : Bool × Store :=
  match get_deployment s deployment_id with
  | some _ =>
      (true,
        { deployments := s.deployments.filter (fun r => r.id != deployment_id)
          port_allocations :=
            s.port_allocations.filter (fun a => a.deployment_id != deployment_id) })
  | none => (false, s)

/-- `delete_deployment` as seen by callers: the Python method catches
database errors, rolls the transaction back and returns False — a value its
callers in deployment_manager.py ignore.  `ok = false` is such a failed
(rolled-back) delete. -/
def db_delete (ok : Bool) (s : Store) (deployment_id : String) : Bool × Store :=
  if ok then db_delete_deployment s deployment_id else (false, s)

/-- `SELECT COUNT(*) FROM deployments WHERE tester_email = ?`. -/
def count_tester_deployments (s : Store) (tester_email : String) : Nat :=
  (s.deployments.filter (fun d => d.tester_email == tester_email)).length

/-! ### The port allocator (DeploymentDatabase.allocate_port_range) -/

/-- `port_start = 18000` in allocate_port_range. -/
def port_start : Int := 18000

/-- `port_end = 19000` in allocate_port_range. -/
def port_end : Int := 19000

/-- Insertion into a sorted list, used to model `ORDER BY port_base`. -/
def insertSorted (x : Int) : List Int → List Int
  | [] => [x]
  | y :: ys => if x ≤ y then x :: y :: ys else y :: insertSorted x ys

/-- Ascending sort of the allocated port list (`ORDER BY port_base`). -/
def sortPorts (l : List Int) : List Int := l.foldr insertSorted []

/-- The inner loop of allocate_port_range: scan consecutive allocations for the
first internal gap of width ≥ increment; `gap_start = a + increment`,
`gap_end = b`, take `gap_start` if `gap_end - gap_start >= increment`. -/
def scanGaps (increment : Int) : List Int → Option Int
  | a :: b :: rest =>
      if b - (a + increment) ≥ increment then some (a + increment)
      else scanGaps increment (b :: rest)
  | _ => none

/-- `allocated_ports[-1]`, written as a total fold over the tail. -/
def lastPort (a : Int) : List Int → Int
  | [] => a
  | b :: rest => lastPort b rest

/-- The port chosen by allocate_port_range before its final range check:
range start if nothing is allocated or the gap before the first allocation is
large enough, else the first internal gap, else the slot after the last
allocation if it still fits before `port_end`. -/
def choose_port_base (allocated : List Int) (increment : Int) : Option Int :=
  match allocated with
  | [] => some port_start
  | a0 :: rest =>
      if a0 - port_start ≥ increment then some port_start
      else
        match scanGaps increment (a0 :: rest) with
        | some p => some p
        | none =>
            let next := lastPort a0 rest + increment
            if next + increment ≤ port_end then some next else none

/-- DeploymentDatabase.allocate_port_range: pick the lowest free slot and, if
one fits below `port_end`, insert the port-allocation row and commit (its own
transaction); otherwise return None with the table unchanged. -/
def allocate_port_range (s : Store) (deployment_id : String) (increment : Int := 100) :
    Option Int × Store :=
  let allocated := sortPorts (s.port_allocations.map (fun a => a.port_base))
  match choose_port_base allocated increment with
  | some pb =>
      if pb + increment ≤ port_end then
        (some pb, { s with port_allocations := s.port_allocations ++ [⟨pb, deployment_id⟩] })
      else (none, s)
  | none => (none, s)

/-! ### Arithmetic-progression lemmas about the allocator -/

/-- `arithSeq s i k = [s, s+i, ..., s+(k-1)i]`, the shape of the allocated
port list after `k` gap-free allocations. -/
def arithSeq (start step : Int) : Nat → List Int
  | 0 => []
  | k + 1 => start :: arithSeq (start + step) step k

/-- The store reached from an empty database by `k` successive
allocate_port_range calls with increment `I`, no deployment saves and no
deallocations in between (the deployment ids are irrelevant to the
allocator). -/
def allocSeq (I : Int) : Nat → Store
  | 0 => ⟨[], []⟩
  | k + 1 => (allocate_port_range (allocSeq I k) ("d" ++ toString (k + 1)) I).2

/-- The port returned by the `(k+1)`-st sequential allocation. -/
def allocResult (I : Int) (k : Nat) : Option Int :=
  (allocate_port_range (allocSeq I k) ("d" ++ toString (k + 1)) I).1

/-- A deployment row as produced by a successful create, used in the concrete
gap-reuse scenario of spec §8. -/
def mkDeployment (dep_id : String) (pb : Int) : Deployment :=
  { id := dep_id, name := dep_id, tester_email := "a@x.com", openspp_version := "17.0",
    environment := "devel", status := .running, port_base := pb,
    subdomain := dep_id ++ ".test.openspp.org", last_action := "", notes := "",
    auth_password := "" }

/-- The store holding deployments d1, d2, d3 at port bases 18000, 18100,
18200 (three creates with increment 100 from an empty database). -/
def gapStore : Store :=
  { deployments := [mkDeployment "d1" 18000, mkDeployment "d2" 18100, mkDeployment "d3" 18200]
    port_allocations := [⟨18000, "d1"⟩, ⟨18100, "d2"⟩, ⟨18200, "d3"⟩] }

/-! ### Validation and id sanitisation (utils.py, models.DeploymentParams) -/

/-- The character class `[a-z0-9]`. -/
def lowerAlnum (c : Char) : Bool :=
  ('a' ≤ c && c ≤ 'z') || ('0' ≤ c && c ≤ '9')

/-- Python `str.lower()` on one character (ASCII, which is all the validator
accepts). -/
def lowerChar (c : Char) : Char :=
  if 'A' ≤ c && c ≤ 'Z' then Char.ofNat (c.toNat + 32) else c

/-- Python `str.lower()`. -/
def lowerStr (s : String) : String := String.mk (s.toList.map lowerChar)

/-- The regex `^[a-z0-9][a-z0-9-]{1,18}[a-z0-9]$` applied to the lower-cased
name (models.DeploymentParams.validate). -/
def validNameFormat (name : String) : Bool :=
  let l := name.toList.map lowerChar
  decide (3 ≤ l.length) && decide (l.length ≤ 20)
    && (match l.head? with | some c => lowerAlnum c | none => false)
    && (match l.getLast? with | some c => lowerAlnum c | none => false)
    && (l.drop 1).dropLast.all (fun c => lowerAlnum c || c == '-')

/-- Creation parameters (models.DeploymentParams); `dependency_versions` is
not modelled. -/
structure DeploymentParams where
  tester_email : String
  name : String
  environment : String
  openspp_version : String
  notes : String
deriving DecidableEq

/-- models.DeploymentParams.validate. -/
def DeploymentParams.validate (p : DeploymentParams) : List String :=
  (if p.tester_email == "" || !(p.tester_email.toList.contains '@') then
      ["Invalid tester email"] else [])
    ++ (if p.name == "" then ["Deployment name is required"] else [])
    ++ (if !(validNameFormat p.name) then
          ["Name must be 3-20 characters, alphanumeric and hyphens only"] else [])
    ++ (if !(["devel", "test", "prod"].contains p.environment) then
          ["Environment must be devel, test, or prod"] else [])

/-- utils.sanitize_deployment_id: local part of the email with dots replaced
by hyphens, lower-cased, restricted to `[a-z0-9-]`, joined to the likewise
sanitised name. -/
def sanitize_deployment_id (tester_email name : String) : String :=
  let tester0 := (tester_email.toList.takeWhile (fun c => c != '@')).map
    (fun c => if c == '.' then '-' else c)
  let tester := (tester0.map lowerChar).filter (fun c => lowerAlnum c || c == '-')
  let nm := (name.toList.map lowerChar).filter (fun c => lowerAlnum c || c == '-')
  String.mk tester ++ "-" ++ String.mk nm

/-! ### create_deployment (deployment_manager.DeploymentManager) -/

/-- The configuration fields consulted by the modelled operations
(models.AppConfig). -/
structure AppConfig where
  max_deployments_per_tester : Nat
  docker_skip_health_check : Bool
  nginx_enabled : Bool
  dev_mode : Bool
  base_domain : String
deriving DecidableEq

/-- Outcome oracle for the external effects of one create_deployment call.
`save_ok k` models the return value of the `(k+1)`-st
DeploymentDatabase.save_deployment call made during the create (each call
independently catches database errors, rolls back and returns False — a
value every caller in deployment_manager.py ignores), `delete_ok` the
return value of the db delete_deployment call made by failure cleanup
(likewise caught and ignored), `task_ok` the exit status of each `invoke`
task, `wait_healthy` the result of DockerComposeHandler.wait_for_services,
and `domain_raises` whether the domain setup call (whose return value create
ignores) raises. -/
structure CreateEnv where
  save_ok : Nat → Bool
  delete_ok : Bool
  clone_ok : Bool
  repos_yaml_ok : Bool
  env_file_ok : Bool
  override_ok : Bool
  task_ok : String → Bool
  wait_healthy : Bool
  domain_raises : Bool

/-- The fixed bring-up sequence of create_deployment. -/
def createTasks : List String :=
  ["develop", "img-pull", "img-build", "git-aggregate", "resetdb", "start"]

/-- The task loop of create_deployment: each successful task sets
`last_action = "Executed <task>"` and saves (the `k`-th save of this create
call consumes outcome `save_ok k`); a failing task raises with the task
name.  Results and raised errors carry the next save index, the in-memory
deployment and the store at that point. -/
def runCreateTasks (env : CreateEnv) :
    List String → Nat → Deployment → Store →
      Except (String × Nat × Deployment × Store) (Nat × Deployment × Store)
  | [], k, d, s => .ok (k, d, s)
  | t :: rest, k, d, s =>
      if env.task_ok t then
        let d' := { d with last_action := "Executed " ++ t }
        runCreateTasks env rest (k + 1) d' (db_save (env.save_ok k) s d')
      else .error ("Task " ++ t ++ " failed", k, d, s)

/-- The `try` block of create_deployment after the initial CREATING save:
repository setup, repos.yaml rewrite, .env generation, compose override, the
task loop, the health wait (skipped when configured off), and — when nginx is
enabled — the domain setup, whose returned outcome create ignores.
Modelled from the spec: src/domain_manager.py is not part of the sources; per
§4.4/§7 `setup_domain` returns an explicit (ok, message) outcome, and
`domain_raises` additionally covers a raising implementation. -/
def createBody (cfg : AppConfig) (env : CreateEnv) (k : Nat) (d0 : Deployment) (s : Store) :
    Except (String × Nat × Deployment × Store) (Deployment × Store) :=
  if !env.clone_ok then .error ("repository setup failed", k, d0, s)
  else if !env.repos_yaml_ok then .error ("Failed to update repos.yaml", k, d0, s)
  else if !env.env_file_ok then .error ("Failed to generate .env file", k, d0, s)
  else if !env.override_ok then .error ("Failed to generate docker-compose override", k, d0, s)
  else
    match runCreateTasks env createTasks k d0 s with
    | .error e => .error e
    | .ok (k1, d1, s1) =>
        let d2 :=
          if cfg.docker_skip_health_check then { d1 with status := DeploymentStatus.running }
          else if env.wait_healthy then { d1 with status := DeploymentStatus.running }
          else { d1 with
                 status := DeploymentStatus.error
                 last_action := "Services failed to start" }
        if cfg.nginx_enabled && env.domain_raises then
          .error ("domain setup failed", k1, d2, s1)
        else
          .ok (d2, db_save (env.save_ok k1) s1 d2)

/-- DeploymentManager._cleanup_failed_deployment: in dev mode the containers
are stopped but files and the store record are preserved; otherwise
containers, files and nginx config are removed and the store record with its
port allocation is deleted. -/
def cleanup_failed_deployment (cfg : AppConfig) (delete_ok : Bool) (s : Store)
    (d : Deployment) : Store :=
  if cfg.dev_mode then s else (db_delete delete_ok s d.id).2

/-- The initial CREATING record built by create_deployment after port
allocation. -/
def initialDeployment (cfg : AppConfig) (p : DeploymentParams) (pb : Int) : Deployment :=
  { id := sanitize_deployment_id p.tester_email p.name, name := p.name,
    tester_email := p.tester_email, openspp_version := p.openspp_version,
    environment := p.environment, status := DeploymentStatus.creating, port_base := pb,
    subdomain := sanitize_deployment_id p.tester_email p.name ++ "." ++ cfg.base_domain,
    last_action := "", notes := p.notes, auth_password := "" }

/-- DeploymentManager.create_deployment: validation, quota, port allocation,
initial CREATING save, the bring-up body, and the central exception handler
(mark ERROR, save, clean up). -/
def create_deployment (cfg : AppConfig) (env : CreateEnv) (s : Store) (p : DeploymentParams) :
    Bool × String × Store :=
  match p.validate with
  | _ :: _ => (false, "Validation failed", s)
  | [] =>
    if count_tester_deployments s p.tester_email < cfg.max_deployments_per_tester then
      match allocate_port_range s (sanitize_deployment_id p.tester_email p.name) 100 with
      | (some pb, s1) =>
          let d0 : Deployment := initialDeployment cfg p pb
          let s2 := db_save (env.save_ok 0) s1 d0
          match createBody cfg env 1 d0 s2 with
          | .ok (_, s3) => (true, "Deployment created successfully", s3)
          | .error (msg, k, d, s3) =>
              let dE := { d with
                          status := DeploymentStatus.error
                          last_action := "Creation failed: " ++ msg }
              let s4 := db_save (env.save_ok k) s3 dE
              (false, "Deployment failed: " ++ msg,
                cleanup_failed_deployment cfg env.delete_ok s4 dE)
      | (none, s1) => (false, "No available port range", s1)
    else (false, "Deployment limit reached for " ++ p.tester_email, s)

/-- A port-allocation row with no owning deployment row — the leak the spec
declares impossible. -/
def leaked_allocation (s : Store) : Bool :=
  s.port_allocations.any (fun a => !(s.deployments.any (fun d => d.id == a.deployment_id)))

/-! ### delete / stop / start / restart / update (deployment_manager) -/

/-- Oracle for delete_deployment: whether the `docker compose down -v` call
raises, and whether the db delete_deployment transaction commits (a caught
failure rolls back and returns False, a value the manager ignores). -/
structure DeleteEnv where
  docker_down_ok : Bool
  db_delete_ok : Bool
deriving DecidableEq

/-- DeploymentManager.delete_deployment: look the record up, tear down the
containers with volumes, remove the nginx config and the working directory
(no store effect), then remove the store record and its port allocation —
the db delete's return value is ignored and success is reported
regardless. -/
def delete_deployment (env : DeleteEnv) (s : Store) (deployment_id : String) :
    Bool × String × Store :=
  match get_deployment s deployment_id with
  | none => (false, "Deployment not found", s)
  | some _ =>
      if env.docker_down_ok then
        (true, "Deployment deleted", (db_delete env.db_delete_ok s deployment_id).2)
      else (false, "docker down raised", s)

/-- Oracle for the docker calls of stop/start/restart and the health wait of
start. -/
structure LifecycleEnv where
  docker_stop_ok : Bool
  docker_start_ok : Bool
  docker_restart_ok : Bool
  wait_healthy : Bool
deriving DecidableEq

/-- DeploymentManager.stop_deployment: fetch the record and stop the
containers — there is no guard on the current status. -/
def stop_deployment (env : LifecycleEnv) (s : Store) (deployment_id : String) :
    Bool × String × Store :=
  match get_deployment s deployment_id with
  | none => (false, "Deployment not found", s)
  | some d =>
      if env.docker_stop_ok then
        let d' := { d with status := DeploymentStatus.stopped, last_action := "Stopped" }
        (true, "Deployment stopped", save_deployment s d')
      else (false, "Failed to stop", s)

/-- DeploymentManager.start_deployment: guarded on status = STOPPED, then the
docker start and the wait_for_services health gate; note that it returns
True even when the health wait fails and the status is set to ERROR. -/
def start_deployment (env : LifecycleEnv) (s : Store) (deployment_id : String) :
    Bool × String × Store :=
  match get_deployment s deployment_id with
  | none => (false, "Deployment not found", s)
  | some d =>
      if d.status != DeploymentStatus.stopped then
        (false, "Cannot start deployment in " ++ statusValue d.status ++ " state", s)
      else if env.docker_start_ok then
        let d' :=
          if env.wait_healthy then
            { d with status := DeploymentStatus.running, last_action := "Started" }
          else
            { d with
              status := DeploymentStatus.error
              last_action := "Services failed to start" }
        (true, "Deployment started", save_deployment s d')
      else (false, "Failed to start", s)

/-- DeploymentManager.restart_deployment: no status guard; a quick restart or
a full stop+start, then `last_action := "Restarted"` with the status field
unchanged. -/
def restart_deployment (env : LifecycleEnv) (s : Store) (deployment_id : String)
    (quick : Bool) : Bool × String × Store :=
  match get_deployment s deployment_id with
  | none => (false, "Deployment not found", s)
  | some d =>
      if quick then
        if env.docker_restart_ok then
          let d' := { d with last_action := "Restarted" }
          (true, "Deployment restarted", save_deployment s d')
        else (false, "Failed to restart", s)
      else
        if !env.docker_stop_ok then (false, "Failed to stop", s)
        else if env.docker_start_ok then
          let d' := { d with last_action := "Restarted" }
          (true, "Deployment restarted", save_deployment s d')
        else (false, "Failed to restart", s)

/-- Oracle for update_deployment's external calls.  The docker stop before
the task loop has its result ignored by the Python code, so it does not
appear. -/
structure UpdateEnv where
  repos_yaml_ok : Bool
  task_ok : String → Bool
  wait_healthy : Bool

/-- The update task sequence: git-aggregate, then resetdb or update, then
start. -/
def updateTasks (reset_db : Bool) : List String :=
  ["git-aggregate"] ++ (if reset_db then ["resetdb"] else ["update"]) ++ ["start"]

/-- DeploymentManager.update_deployment: guarded on status = RUNNING, moves
to UPDATING, rewrites repos.yaml, runs the task sequence (no per-task saves),
then the health wait decides RUNNING or ERROR — but the returned outcome is
True with "Updated to version ..." in both cases. -/
def update_deployment (env : UpdateEnv) (s : Store) (deployment_id new_version : String)
    (reset_db : Bool) : Bool × String × Store :=
  match get_deployment s deployment_id with
  | none => (false, "Deployment not found", s)
  | some d =>
      if d.status != DeploymentStatus.running then
        (false, "Cannot update deployment in " ++ statusValue d.status ++ " state", s)
      else
        let dU := { d with status := DeploymentStatus.updating }
        let s1 := save_deployment s dU
        let dV := { dU with openspp_version := new_version }
        if !env.repos_yaml_ok then
          let dE := { dV with
                      status := DeploymentStatus.error
                      last_action := "Update failed: Failed to update repos.yaml" }
          (false, "Failed to update repos.yaml", save_deployment s1 dE)
        else
          match (updateTasks reset_db).find? (fun t => !(env.task_ok t)) with
          | some t =>
              let dE := { dV with
                          status := DeploymentStatus.error
                          last_action := "Update failed: Task " ++ t ++ " failed" }
              (false, "Task " ++ t ++ " failed", save_deployment s1 dE)
          | none =>
              let dF :=
                if env.wait_healthy then
                  { dV with
                    status := DeploymentStatus.running
                    last_action := "Updated to " ++ new_version }
                else
                  { dV with
                    status := DeploymentStatus.error
                    last_action := "Update failed - services not healthy" }
              (true, "Updated to version " ++ new_version, save_deployment s1 dF)

/-! ### Git cache (git_cache.GitCacheManager) -/

/-- Git-cache state: the set of existing mirror directories and the
`_last_fetch` timestamp map.  Time is in seconds. -/
structure GitCacheState where
  mirrors : List String
  last_fetch : List (String × Int)
deriving DecidableEq

/-- `_cache_ttl = timedelta(minutes=5)`, in seconds. -/
def cache_ttl : Int := 300

def lookup_last_fetch (st : GitCacheState) (repo_url : String) : Option Int :=
  (st.last_fetch.find? (fun p => p.1 == repo_url)).map (fun p => p.2)

/-- GitCacheManager._should_fetch. -/
def should_fetch (st : GitCacheState) (now : Int) (repo_url : String) : Bool :=
  match lookup_last_fetch st repo_url with
  | none => true
  | some t => decide (now - t > cache_ttl)

/-- `self._last_fetch[repo_url] = datetime.now()`. -/
def record_fetch (st : GitCacheState) (repo_url : String) (now : Int) : GitCacheState :=
  { st with last_fetch := (repo_url, now) :: st.last_fetch.filter (fun p => p.1 != repo_url) }

/-- Oracle for the git network calls. -/
structure GitEnv where
  fetch_ok : Bool
  clone_ok : Bool
deriving DecidableEq

/-- The clone path of update_or_clone_repo — a network round-trip.  A clone
failure is raised to the caller. -/
def clone_repo (env : GitEnv) (st : GitCacheState) (now : Int) (repo_url : String) :
    Except String (Bool × GitCacheState) :=
  if env.clone_ok then
    .ok (true, record_fetch { st with mirrors := repo_url :: st.mirrors } repo_url now)
  else .error "clone failed"

/-- GitCacheManager.update_or_clone_repo.  The Bool records whether a network
round-trip (fetch or clone) was performed.  On an existing fresh mirror no
fetch happens and only a local branch checkout is done; on a stale mirror a
fetch runs and the fetch time is recorded; a failed update removes the mirror
and re-clones from scratch; a missing mirror is cloned. -/
def update_or_clone_repo (env : GitEnv) (st : GitCacheState) (now : Int) (repo_url : String)
    (force_update : Bool := false) : Except String (Bool × GitCacheState) :=
  if st.mirrors.contains repo_url then
    if !force_update && !(should_fetch st now repo_url) then
      .ok (false, st)
    else if env.fetch_ok then
      .ok (true, record_fetch st repo_url now)
    else
      clone_repo env { st with mirrors := st.mirrors.erase repo_url } now repo_url
  else clone_repo env st now repo_url

/-! ### Command retry (utils.run_command_with_retry / retry_on_failure) -/

/-- An observed command execution outcome. -/
structure CmdResult where
  returncode : Int
  stderr : String
deriving DecidableEq

/-- Substring test (`needle in hay` in Python). -/
def strContains (hay needle : String) : Bool :=
  let h := hay.toList
  let n := needle.toList
  (List.range (h.length + 1)).any (fun i => n.isPrefixOf (h.drop i))

/-- The transient-error test of run_command_with_retry: a non-zero exit whose
lower-cased stderr mentions the transient vocabulary. -/
def transientFailure (r : CmdResult) : Bool :=
  r.returncode != 0 &&
    ["network", "timeout", "connection", "temporary"].any
      (fun e => strContains (lowerStr r.stderr) e)

/-- `retriable_commands` in run_command_with_retry. -/
def retriable_commands : List String := ["git", "docker", "docker-compose", "invoke"]

/-- The attempt loop of utils.retry_on_failure applied to the wrapped run:
`runs i` is the result of the `(i+1)`-st actual execution of the command.
Returns the escaping result (`none` when the final attempt raised), the
number of executions performed, and the back-off sleeps taken. -/
def attemptLoop (runs : Nat → CmdResult) (idx : Nat) (delay : Int) :
    Nat → Option CmdResult × Nat × List Int
  | 0 => (none, 0, [])
  | remaining + 1 =>
      let res := runs idx
      if transientFailure res then
        match remaining with
        | 0 => (none, 1, [])
        | r + 1 =>
            let rec2 := attemptLoop runs (idx + 1) (delay * 2) (r + 1)
            (rec2.1, rec2.2.1 + 1, delay :: rec2.2.2)
      else (some res, 1, [])

/-- utils.run_command_with_retry: a retriable executable goes through the
retry_on_failure wrapper (max_attempts attempts, base delay 2s, backoff
factor 2); when every attempt raises a transient error the `except` branch
runs the command once more and returns that result.  A non-retriable
executable runs exactly once.  Returns (result, executions, sleeps). -/
def run_command_with_retry (exe : String) (runs : Nat → CmdResult)
    (max_attempts : Nat := 3) : CmdResult × Nat × List Int :=
  if retriable_commands.contains exe then
    match attemptLoop runs 0 2 max_attempts with
    | (some res, n, ds) => (res, n, ds)
    | (none, n, ds) => (runs n, n + 1, ds)
  else (runs 0, 1, [])

/-! ### Concrete inputs used to witness the theorems -/

/-- A configuration with defaults: quota 3, health checks on, nginx off,
production cleanup. -/
def cfgW : AppConfig :=
  { max_deployments_per_tester := 3, docker_skip_health_check := false,
    nginx_enabled := false, dev_mode := false, base_domain := "test.openspp.org" }

/-- An all-success environment for create. -/
def envW : CreateEnv :=
  { save_ok := fun _ => true, delete_ok := true, clone_ok := true, repos_yaml_ok := true,
    env_file_ok := true, override_ok := true, task_ok := fun _ => true,
    wait_healthy := true, domain_raises := false }

/-- The environment in which every database save fails (a possibility the
Python code itself handles by returning False from save_deployment). -/
def envNoSave : CreateEnv := { envW with save_ok := fun _ => false }

/-- A configuration preserving failed deployments (dev_mode). -/
def cfgDevW : AppConfig := { cfgW with dev_mode := true }

/-- The environment in which the initial save commits, the repository setup
then raises, and the error-path save fails — each save_deployment call
succeeds or fails independently in the Python code. -/
def envSaveFailW : CreateEnv := { envW with save_ok := fun i => i == 0, clone_ok := false }

/-- Creation parameters of the end-to-end scenario of spec §8. -/
def paramsW : DeploymentParams :=
  { tester_email := "a@x.com", name := "app1", environment := "devel",
    openspp_version := "17.0", notes := "" }

/-- A store whose port range [18000, 19000) is fully allocated in slots of
width 100. -/
def fullStore : Store :=
  { deployments := []
    port_allocations :=
      [⟨18000, "e1"⟩, ⟨18100, "e2"⟩, ⟨18200, "e3"⟩, ⟨18300, "e4"⟩, ⟨18400, "e5"⟩,
       ⟨18500, "e6"⟩, ⟨18600, "e7"⟩, ⟨18700, "e8"⟩, ⟨18800, "e9"⟩, ⟨18900, "e10"⟩] }

/-- A store holding one STOPPED deployment. -/
def stoppedStore : Store :=
  { deployments := [{ mkDeployment "u-app" 18000 with status := DeploymentStatus.stopped }]
    port_allocations := [⟨18000, "u-app"⟩] }

/-- A command whose every execution fails with transient (network) error
text. -/
def alwaysNetworkFailure : Nat → CmdResult :=
  fun _ => ⟨1, "fatal: unable to access repository: Network is unreachable"⟩

/-- An all-success lifecycle environment. -/
def lcEnvW : LifecycleEnv := ⟨true, true, true, true⟩

/-- A store holding one RUNNING deployment. -/
def runStoreW : Store :=
  { deployments := [mkDeployment "r-app" 18000]
    port_allocations := [⟨18000, "r-app"⟩] }

/-! ### Nginx reconciliation (nginx_manager.NginxManager) -/

/-- The proxy state: per-deployment site-config files (by deployment id,
`openspp-<id>.conf` in sites-available, unique because they are file names)
and basic-auth credential files (`htpasswd-<id>`). -/
structure NginxState where
  site_configs : List String
  htpasswd_files : List String
deriving DecidableEq

/-- A deployment as seen by the reconciler. -/
structure NDeploy where
  id : String
  auth_password : String
deriving DecidableEq

/-- Per-item success oracle for the external writes of reconciliation. -/
structure NginxEnv where
  save_ok : String → Bool
  remove_ok : String → Bool
  htpasswd_ok : String → Bool

/-- The results dictionary of reconcile_nginx_configs. -/
structure ReconcileResults where
  checked : Nat
  created : Nat
  updated : Nat
  removed : Nat
  errors : List String
deriving DecidableEq

/-- NginxManager.remove_nginx_config: removes the config file, the enabled
symlink and the htpasswd file of one deployment id. -/
def remove_nginx_config (st : NginxState) (deployment_id : String) : NginxState :=
  { site_configs := st.site_configs.filter (fun c => c != deployment_id)
    htpasswd_files := st.htpasswd_files.filter (fun c => c != deployment_id) }

/-- First loop of reconcile_nginx_configs: each deployment is counted as
checked; a missing config is created via save_and_enable_nginx_config, a
failed write is recorded as a per-item error and the loop continues. -/
def reconcileCreate (env : NginxEnv) :
    List NDeploy → NginxState → ReconcileResults → NginxState × ReconcileResults
  | [], st, r => (st, r)
  | d :: rest, st, r =>
      let r1 := { r with checked := r.checked + 1 }
      if st.site_configs.contains d.id then
        reconcileCreate env rest st r1
      else if env.save_ok d.id then
        reconcileCreate env rest
          { st with site_configs := st.site_configs ++ [d.id] }
          { r1 with created := r1.created + 1 }
      else
        reconcileCreate env rest st
          { r1 with errors := r1.errors ++ [d.id ++ ": save failed"] }

/-- Second loop: each stale config is removed via remove_nginx_config; a
failed removal is recorded as an error and the loop continues. -/
def reconcileRemove (env : NginxEnv) :
    List String → NginxState → ReconcileResults → NginxState × ReconcileResults
  | [], st, r => (st, r)
  | c :: rest, st, r =>
      if env.remove_ok c then
        reconcileRemove env rest (remove_nginx_config st c)
          { r with removed := r.removed + 1 }
      else
        reconcileRemove env rest st
          { r with errors := r.errors ++ ["Failed to remove config for " ++ c] }

/-- Third loop: recreate a missing htpasswd file for every deployment that
has a stored secret (create_htpasswd_file, whose outcome is not recorded). -/
def reconcileHtpasswd (env : NginxEnv) :
    List NDeploy → NginxState → NginxState
  | [], st => st
  | d :: rest, st =>
      if d.auth_password != "" && !(st.htpasswd_files.contains d.id) then
        if env.htpasswd_ok d.id then
          reconcileHtpasswd env rest
            { st with htpasswd_files := st.htpasswd_files ++ [d.id] }
        else reconcileHtpasswd env rest st
      else reconcileHtpasswd env rest st

/-- NginxManager.reconcile_nginx_configs: snapshot the existing config set,
create missing configs for live deployments, remove configs whose deployment
no longer exists, and recreate missing htpasswd files; per-item errors are
collected and never abort the sweep. -/
def reconcile_nginx_configs (env : NginxEnv) (st : NginxState) (deployments : List NDeploy) :
    NginxState × ReconcileResults :=
  let existing := st.site_configs
  let ids := deployments.map (fun d => d.id)
  let p1 := reconcileCreate env deployments st ⟨0, 0, 0, 0, []⟩
  let stale := existing.filter (fun c => !(ids.contains c))
  let p2 := reconcileRemove env stale p1.1 p1.2
  (reconcileHtpasswd env deployments p2.1, p2.2)

/-- The live deployments and proxy state of the C9 witness: config "a"
exists, config for "b" is missing, "stale1" has no deployment, and "a" has a
stored secret with no credential file. -/
def nginxDeploysW : List NDeploy := [⟨"a", "pw"⟩, ⟨"b", ""⟩]

def nginxStateW : NginxState := ⟨["a", "stale1"], []⟩

def nginxEnvW : NginxEnv := ⟨fun _ => true, fun _ => true, fun _ => true⟩

theorem arithSeq_snoc (i : Int) :
    ∀ (k : Nat) (s : Int), arithSeq s i (k + 1) = arithSeq s i k ++ [s + (k : Int) * i] := by
  intro k
  induction k with
  | zero => intro s; simp [arithSeq]
  | succ k ih =>
      intro s
      have h := ih (s + i)
      have e : s + i + (k : Int) * i = s + ((k : Int) + 1) * i := by ring
      calc arithSeq s i (k + 1 + 1)
          = s :: arithSeq (s + i) i (k + 1) := rfl
        _ = s :: (arithSeq (s + i) i k ++ [s + i + (k : Int) * i]) := by rw [h]
        _ = arithSeq s i (k + 1) ++ [s + ((k : Int) + 1) * i] := by rw [e]; rfl
        _ = arithSeq s i (k + 1) ++ [s + ((k + 1 : Nat) : Int) * i] := by push_cast; ring_nf

theorem insertSorted_head_le (x t i : Int) (hx : x ≤ t) :
    ∀ k : Nat, insertSorted x (arithSeq t i k) = x :: arithSeq t i k := by
  intro k
  cases k with
  | zero => simp [arithSeq, insertSorted]
  | succ k => simp [arithSeq, insertSorted, hx]

theorem sortPorts_arith (i : Int) (hi : 0 ≤ i) :
    ∀ (k : Nat) (s : Int), sortPorts (arithSeq s i k) = arithSeq s i k := by
  intro k
  induction k with
  | zero => intro s; simp [arithSeq, sortPorts]
  | succ k ih =>
      intro s
      have hrec : sortPorts (arithSeq (s + i) i k) = arithSeq (s + i) i k := ih (s + i)
      have hs : s ≤ s + i := by linarith
      calc sortPorts (arithSeq s i (k + 1))
          = insertSorted s (sortPorts (arithSeq (s + i) i k)) := rfl
        _ = insertSorted s (arithSeq (s + i) i k) := by rw [hrec]
        _ = s :: arithSeq (s + i) i k := insertSorted_head_le s (s + i) i hs k
        _ = arithSeq s i (k + 1) := rfl

theorem scanGaps_arith (i : Int) (hi : 0 < i) :
    ∀ (k : Nat) (s : Int), scanGaps i (arithSeq s i k) = none := by
  intro k
  induction k with
  | zero => intro s; simp [arithSeq, scanGaps]
  | succ k ih =>
      intro s
      cases k with
      | zero => simp [arithSeq, scanGaps]
      | succ j =>
          have hcond : ¬ (s + i - (s + i) ≥ i) := by omega
          calc scanGaps i (arithSeq s i (j + 1 + 1))
              = scanGaps i (arithSeq (s + i) i (j + 1)) := by
                show (if s + i - (s + i) ≥ i then some (s + i)
                      else scanGaps i (arithSeq (s + i) i (j + 1))) = _
                rw [if_neg hcond]
            _ = none := ih (s + i)

theorem lastPort_arith (i : Int) :
    ∀ (k : Nat) (a : Int), lastPort a (arithSeq (a + i) i k) = a + (k : Int) * i := by
  intro k
  induction k with
  | zero => intro a; simp [arithSeq, lastPort]
  | succ k ih =>
      intro a
      have h := ih (a + i)
      simp only [arithSeq, lastPort] at h ⊢
      rw [h]
      push_cast
      ring

/-- Behaviour of choose_port_base on a non-empty gap-free block of
allocations starting at 18000. -/
theorem choose_arith_succ (I : Int) (hI : 0 < I) (m : Nat) :
    choose_port_base (arithSeq 18000 I (m + 1)) I =
      (if 18000 + (m : Int) * I + I + I ≤ 19000 then some (18000 + (m : Int) * I + I)
       else none) := by
  have hscan : scanGaps I (arithSeq 18000 I (m + 1)) = none := scanGaps_arith I hI (m + 1) 18000
  have hlast : lastPort 18000 (arithSeq (18000 + I) I m) = 18000 + (m : Int) * I :=
    lastPort_arith I m 18000
  show (if (18000 : Int) - port_start ≥ I then some port_start
        else
          match scanGaps I (arithSeq 18000 I (m + 1)) with
          | some p => some p
          | none =>
              let next := lastPort 18000 (arithSeq (18000 + I) I m) + I
              if next + I ≤ port_end then some next else none) = _
  rw [if_neg (by simp only [port_start]; omega : ¬ (18000 : Int) - port_start ≥ I)]
  rw [hscan, hlast]
  simp only [port_end]

/-- Behaviour of allocate_port_range when the allocated ports form the gap-free
block `[18000, 18000+I, ..., 18000+(m-1)I]`: the next allocation takes the slot
right after the block if it still fits below 19000, else fails with the table
unchanged. -/
theorem allocate_arith (s : Store) (deployment_id : String) (I : Int) (m : Nat)
    (hI : 0 < I)
    (hs : sortPorts (s.port_allocations.map (fun a => a.port_base)) = arithSeq 18000 I m) :
    allocate_port_range s deployment_id I =
      if 18000 + (m : Int) * I + I ≤ 19000 then
        (some (18000 + (m : Int) * I),
          { s with port_allocations :=
              s.port_allocations ++ [⟨18000 + (m : Int) * I, deployment_id⟩] })
      else (none, s) := by
  unfold allocate_port_range
  rw [hs]
  simp only []
  cases m with
  | zero =>
      simp only [arithSeq, choose_port_base, port_start, port_end, Nat.cast_zero, zero_mul,
        add_zero]
  | succ m =>
      rw [choose_arith_succ I hI m]
      have ecast : ((m + 1 : Nat) : Int) * I = (m : Int) * I + I := by push_cast; ring
      have eadd : (18000 : Int) + ((m : Int) * I + I) = 18000 + (m : Int) * I + I := by ring
      rw [ecast, eadd]
      by_cases h : 18000 + (m : Int) * I + I + I ≤ 19000
      · rw [if_pos h, if_pos h]
        show (if 18000 + (m : Int) * I + I + I ≤ port_end then _ else _) = _
        rw [if_pos (by simpa [port_end] using h)]
      · rw [if_neg h, if_neg h]

/-- After `k` gap-free sequential allocations the allocation table holds
exactly the block `[18000, 18000+I, ..., 18000+(k-1)I]`. -/
theorem allocSeq_ports (I : Int) (hI : 0 < I) :
    ∀ k : Nat, (k : Int) * I ≤ 1000 →
      (allocSeq I k).port_allocations.map (fun a => a.port_base) = arithSeq 18000 I k := by
  intro k
  induction k with
  | zero => intro _; rfl
  | succ k ih =>
      intro hk
      have ek : ((k + 1 : Nat) : Int) * I = (k : Int) * I + I := by push_cast; ring
      rw [ek] at hk
      have hk' : (k : Int) * I ≤ 1000 := by linarith
      have hmap := ih hk'
      have hsorted :
          sortPorts ((allocSeq I k).port_allocations.map (fun a => a.port_base)) =
            arithSeq 18000 I k := by
        rw [hmap]; exact sortPorts_arith I (le_of_lt hI) k 18000
      have halloc := allocate_arith (allocSeq I k) ("d" ++ toString (k + 1)) I k hI hsorted
      rw [if_pos (by linarith : 18000 + (k : Int) * I + I ≤ 19000)] at halloc
      show ((allocate_port_range (allocSeq I k) ("d" ++ toString (k + 1)) I).2).port_allocations.map
        (fun a => a.port_base) = _
      rw [halloc, arithSeq_snoc I k 18000]
      simp only [List.map_append, hmap]
      rfl

/-- C2: allocate_port_range is lowest-address first-fit.  (i) With no
deallocations, the `(k+1)`-st sequential allocation with increment `I`
returns `18000 + k*I`.  (ii) After allocating 18000/18100/18200 for
d1/d2/d3 and deleting d2, the next allocation returns the freed 18100. -/
theorem allocate_port_range_first_fit (I : Int) (n k : Nat)
    (hI : 0 < I) (hn : (n : Int) * I ≤ 1000) (hk : k < n) :
    allocResult I k = some (18000 + (k : Int) * I)
    ∧ (allocate_port_range (db_delete_deployment gapStore "d2").2 "d4" 100).1 = some 18100 := by
  constructor
  · have hkn : ((k : Int) + 1) ≤ (n : Int) := by exact_mod_cast hk
    have hk1 : ((k : Int) + 1) * I ≤ (n : Int) * I :=
      mul_le_mul_of_nonneg_right hkn (le_of_lt hI)
    have hkI : (k : Int) * I + I ≤ 1000 := by nlinarith
    have hk' : (k : Int) * I ≤ 1000 := by linarith
    have hmap := allocSeq_ports I hI k hk'
    have hsorted :
        sortPorts ((allocSeq I k).port_allocations.map (fun a => a.port_base)) =
          arithSeq 18000 I k := by
      rw [hmap]; exact sortPorts_arith I (le_of_lt hI) k 18000
    have halloc := allocate_arith (allocSeq I k) ("d" ++ toString (k + 1)) I k hI hsorted
    rw [if_pos (by linarith : 18000 + (k : Int) * I + I ≤ 19000)] at halloc
    unfold allocResult
    rw [halloc]
  · decide

/-- Witness for C2 at I = 100, n = 3, k = 2. -/
theorem allocate_port_range_first_fit_witness :
    allocResult 100 2 = some (18000 + ((2 : Nat) : Int) * 100)
    ∧ (allocate_port_range (db_delete_deployment gapStore "d2").2 "d4" 100).1 = some 18100 :=
  allocate_port_range_first_fit 100 3 2 (by decide) (by decide) (by decide)

/-! ### Store lemmas -/

theorem find?_id_filter_ne (l : List Deployment) (i : String) :
    (l.filter (fun r => r.id != i)).find? (fun r => r.id == i) = none := by
  rw [List.find?_eq_none]
  intro x hx
  have hmem := (List.mem_filter.mp hx).2
  simp only [bne_iff_ne, ne_eq] at hmem
  simp only [beq_iff_eq]
  exact hmem

theorem find?_filter_of_imp {α} (l : List α) (p q : α → Bool)
    (h : ∀ x, p x = true → q x = true) :
    (l.filter q).find? p = l.find? p := by
  induction l with
  | nil => rfl
  | cons a l ih =>
      by_cases hpa : p a
      · have hqa : q a := h a hpa
        simp [List.filter_cons, hqa, List.find?_cons, hpa, ih]
      · by_cases hqa : q a
        · simp [List.filter_cons, hqa, List.find?_cons, hpa, ih]
        · simp [List.filter_cons, hqa, List.find?_cons, hpa, ih]

theorem get_save_self (s : Store) (d : Deployment) :
    get_deployment (save_deployment s d) d.id = some d := by
  unfold get_deployment save_deployment
  rw [List.find?_append, find?_id_filter_ne]
  simp [List.find?]

theorem db_save_true (s : Store) (d : Deployment) (ok : Bool) (h : ok = true) :
    db_save ok s d = save_deployment s d := by rw [db_save, h]; rfl

theorem db_save_false (s : Store) (d : Deployment) (ok : Bool) (h : ok = false) :
    db_save ok s d = s := by rw [db_save, h]; rfl

theorem db_delete_true (s : Store) (i : String) (ok : Bool) (h : ok = true) :
    db_delete ok s i = db_delete_deployment s i := by rw [db_delete, h]; rfl

theorem db_delete_false (s : Store) (i : String) (ok : Bool) (h : ok = false) :
    db_delete ok s i = (false, s) := by rw [db_delete, h]; rfl

theorem get_db_delete_self (s : Store) (i : String) :
    get_deployment (db_delete_deployment s i).2 i = none := by
  unfold db_delete_deployment
  cases h : get_deployment s i with
  | none => simpa using h
  | some d => exact find?_id_filter_ne s.deployments i

theorem get_deployment_id (s : Store) (i : String) (d : Deployment)
    (h : get_deployment s i = some d) : d.id = i := by
  unfold get_deployment at h
  have := List.find?_some h
  simpa [beq_iff_eq] using this

theorem allocate_port_range_deployments (s : Store) (i : String) (inc : Int) :
    ((allocate_port_range s i inc).2).deployments = s.deployments := by
  unfold allocate_port_range
  simp only []
  cases choose_port_base (sortPorts (s.port_allocations.map (fun a => a.port_base))) inc with
  | none => rfl
  | some pb =>
      by_cases h : pb + inc ≤ port_end
      · simp [h]
      · simp [h]

/-- Facts about the create task loop: the deployment id is never changed. -/
theorem runCreateTasks_facts (env : CreateEnv) :
    ∀ (ts : List String) (k : Nat) (d : Deployment) (s : Store),
      match runCreateTasks env ts k d s with
      | .ok (_, d', _) => d'.id = d.id
      | .error (_, _, d', _) => d'.id = d.id := by
  intro ts
  induction ts with
  | nil => intro k d s; exact rfl
  | cons t rest ih =>
      intro k d s
      show (match (if env.task_ok t then
              runCreateTasks env rest (k + 1) { d with last_action := "Executed " ++ t }
                (db_save (env.save_ok k) s { d with last_action := "Executed " ++ t })
            else .error ("Task " ++ t ++ " failed", k, d, s)) with
        | .ok (_, d', _) => d'.id = d.id
        | .error (_, _, d', _) => d'.id = d.id)
      by_cases ht : env.task_ok t
      · rw [if_pos ht]
        have h := ih (k + 1) { d with last_action := "Executed " ++ t }
          (db_save (env.save_ok k) s { d with last_action := "Executed " ++ t })
        revert h
        cases runCreateTasks env rest (k + 1) { d with last_action := "Executed " ++ t }
            (db_save (env.save_ok k) s { d with last_action := "Executed " ++ t }) with
        | ok pr => intro h; exact h
        | error e => intro h; exact h
      · rw [if_neg ht]

/-- Facts about the create try-block: an ok result carries a RUNNING or ERROR
deployment that (when every save in this create succeeds) is the persisted
row; an error result keeps the deployment id. -/
theorem createBody_facts (cfg : AppConfig) (env : CreateEnv) (k : Nat) (d0 : Deployment)
    (s : Store) :
    match createBody cfg env k d0 s with
    | .ok (d', s') =>
        d'.id = d0.id
        ∧ (d'.status = DeploymentStatus.running ∨ d'.status = DeploymentStatus.error)
        ∧ ((∀ i, env.save_ok i = true) → get_deployment s' d'.id = some d')
    | .error (_, _, d', _) => d'.id = d0.id := by
  unfold createBody
  cases hc : env.clone_ok with
  | false => simp
  | true =>
  cases hr : env.repos_yaml_ok with
  | false => simp
  | true =>
  cases he : env.env_file_ok with
  | false => simp
  | true =>
  cases ho : env.override_ok with
  | false => simp
  | true =>
  simp only [Bool.not_true, Bool.false_eq_true, if_false]
  have hrun := runCreateTasks_facts env createTasks k d0 s
  revert hrun
  cases runCreateTasks env createTasks k d0 s with
  | error e =>
      obtain ⟨m, k1, dE, sE⟩ := e
      intro h
      exact h
  | ok pr =>
      obtain ⟨k1, d1, s1⟩ := pr
      intro h
      simp only [] at h ⊢
      by_cases hdom : cfg.nginx_enabled && env.domain_raises
      · rw [if_pos hdom]
        by_cases hskip : cfg.docker_skip_health_check
        · simp [hskip, h]
        · by_cases hw : env.wait_healthy <;> simp [hskip, hw, h]
      · rw [if_neg hdom]
        refine ⟨?_, ?_, ?_⟩
        · by_cases hskip : cfg.docker_skip_health_check
          · simp [hskip, h]
          · by_cases hw : env.wait_healthy <;> simp [hskip, hw, h]
        · by_cases hskip : cfg.docker_skip_health_check
          · simp [hskip]
          · by_cases hw : env.wait_healthy <;> simp [hskip, hw]
        · intro hall
          simp only [db_save, hall k1, if_true]
          exact get_save_self s1 _

/-- C1 counterexample: the claim says every create that passes validation,
quota and port allocation ends with the record persisted as RUNNING or ERROR
(or deleted by cleanup), never CREATING.  But each save_deployment call
catches database errors and returns False independently, and create_deployment
ignores every such return value: when the initial save of the CREATING record
commits, a later step raises, and the error-path save fails, a dev-mode
create returns with the record still persisted as CREATING. -/
theorem create_leaves_creating_counterexample :
    (Option.map (fun d => d.status)
      (get_deployment (create_deployment cfgDevW envSaveFailW ⟨[], []⟩ paramsW).2.2
        (sanitize_deployment_id paramsW.tester_email paramsW.name))
      = some DeploymentStatus.creating)
    ∧ ¬ (Option.all
      (fun d => d.status == DeploymentStatus.running || d.status == DeploymentStatus.error)
      (get_deployment (create_deployment cfgDevW envSaveFailW ⟨[], []⟩ paramsW).2.2
        (sanitize_deployment_id paramsW.tester_email paramsW.name)) = true) := by
  constructor
  · decide
  · decide

/-- C1 (amended): after create_deployment passes validation, quota and port
allocation, and when every save_deployment call made during the create
succeeds (each catches database errors and returns False, a value
create_deployment ignores), the persisted status of the deployment id on
return is RUNNING or ERROR — or the record was deleted by failure cleanup; it
is never left at CREATING.  Without that proviso a failing later save can
leave the initially saved CREATING row in place. -/
theorem create_deployment_status_total (cfg : AppConfig) (env : CreateEnv) (s : Store)
    (p : DeploymentParams)
    (hval : p.validate = [])
    (hquota : count_tester_deployments s p.tester_email < cfg.max_deployments_per_tester)
    (halloc : (allocate_port_range s (sanitize_deployment_id p.tester_email p.name) 100).1.isSome
        = true)
    (hsaves : ∀ i, env.save_ok i = true) :
    Option.all
      (fun d => d.status == DeploymentStatus.running || d.status == DeploymentStatus.error)
      (get_deployment (create_deployment cfg env s p).2.2
        (sanitize_deployment_id p.tester_email p.name)) = true := by
  unfold create_deployment
  rw [hval]
  simp only []
  rw [if_pos hquota]
  cases hA : allocate_port_range s (sanitize_deployment_id p.tester_email p.name) 100 with
  | mk o s1 =>
  cases o with
  | none => rw [hA] at halloc; simp at halloc
  | some pb =>
  simp only []
  have hid0 : (initialDeployment cfg p pb).id = sanitize_deployment_id p.tester_email p.name := rfl
  have hbody := createBody_facts cfg env 1 (initialDeployment cfg p pb)
    (db_save (env.save_ok 0) s1 (initialDeployment cfg p pb))
  cases hB : createBody cfg env 1 (initialDeployment cfg p pb)
      (db_save (env.save_ok 0) s1 (initialDeployment cfg p pb)) with
  | ok pr =>
      obtain ⟨d', s'⟩ := pr
      rw [hB] at hbody
      simp only [] at hbody
      obtain ⟨hid, hst, hsome⟩ := hbody
      simp only []
      have hget := hsome hsaves
      rw [hid, hid0] at hget
      rw [hget]
      rcases hst with h | h <;> simp [Option.all, h]
  | error e =>
      obtain ⟨msg, k, dErr, s3⟩ := e
      rw [hB] at hbody
      simp only [] at hbody
      simp only []
      unfold cleanup_failed_deployment
      have hide : dErr.id = sanitize_deployment_id p.tester_email p.name := by
        rw [hbody, hid0]
      by_cases hdev : cfg.dev_mode
      · rw [if_pos hdev]
        rw [db_save_true _ _ _ (hsaves k), hide]
        have hgets := get_save_self s3
          { dErr with
            status := DeploymentStatus.error
            last_action := "Creation failed: " ++ msg }
        rw [hide] at hgets
        rw [hgets]
        rfl
      · rw [if_neg hdev]
        rw [db_save_true _ _ _ (hsaves k), hide]
        cases hdel : env.delete_ok with
        | true =>
            rw [db_delete_true _ _ _ rfl]
            have hd := get_db_delete_self
              (save_deployment s3
                { dErr with
                  status := DeploymentStatus.error
                  last_action := "Creation failed: " ++ msg })
              (sanitize_deployment_id p.tester_email p.name)
            rw [hide] at hd
            rw [hd]
            rfl
        | false =>
            rw [db_delete_false _ _ _ rfl]
            have hgets := get_save_self s3
              { dErr with
                status := DeploymentStatus.error
                last_action := "Creation failed: " ++ msg }
            rw [hide] at hgets
            rw [hgets]
            rfl

/-- Witness for C1 (amended): the end-to-end creation of `a-app1` from an
empty store with every save succeeding. -/
theorem create_deployment_status_total_witness :
    Option.all
      (fun d => d.status == DeploymentStatus.running || d.status == DeploymentStatus.error)
      (get_deployment (create_deployment cfgW envW ⟨[], []⟩ paramsW).2.2
        (sanitize_deployment_id paramsW.tester_email paramsW.name)) = true :=
  create_deployment_status_total cfgW envW ⟨[], []⟩ paramsW (by decide) (by decide)
    (by decide) (fun _ => rfl)

/-- C3 (code_bug): port allocation and the owning Deployment's save are not
one transaction.  (i) allocate_port_range commits its PortAllocation row in
its own transaction before save_deployment runs, so the committed
intermediate state already holds an allocation with no Deployment row.
(ii) When the subsequent save_deployment fails — a failure the Python code
itself anticipates by catching the error and returning False, a value
create_deployment ignores — the create call returns with a PortAllocation row
and no Deployment row: a leak. -/
theorem port_allocation_leak :
    leaked_allocation (allocate_port_range ⟨[], []⟩ "a-app1" 100).2 = true
    ∧ leaked_allocation (create_deployment cfgW envNoSave ⟨[], []⟩ paramsW).2.2 = true := by
  constructor
  · decide
  · decide

/-- C4: when the port range [18000, 19000) is fully allocated in slots of
width I, allocate_port_range fails with the port_allocations table unchanged,
and create_deployment (which allocates with increment 100) returns failure
without creating a Deployment record. -/
theorem allocate_port_range_exhausted (s : Store) (deployment_id : String) (I : Int) (m : Nat)
    (cfg : AppConfig) (env : CreateEnv) (p : DeploymentParams)
    (hI : 0 < I)
    (hs : sortPorts (s.port_allocations.map (fun a => a.port_base)) = arithSeq 18000 I m)
    (hfull : 1000 < ((m : Int) + 1) * I)
    (hval : p.validate = [])
    (hquota : count_tester_deployments s p.tester_email < cfg.max_deployments_per_tester)
    (hI100 : I = 100) :
    allocate_port_range s deployment_id I = (none, s)
    ∧ create_deployment cfg env s p = (false, "No available port range", s) := by
  have hcond : ¬ (18000 + (m : Int) * I + I ≤ 19000) := by
    have e : ((m : Int) + 1) * I = (m : Int) * I + I := by ring
    rw [e] at hfull
    intro hc
    linarith
  have halloc := allocate_arith s deployment_id I m hI hs
  rw [if_neg hcond] at halloc
  refine ⟨halloc, ?_⟩
  have halloc2 := allocate_arith s (sanitize_deployment_id p.tester_email p.name) I m hI hs
  rw [if_neg hcond] at halloc2
  subst hI100
  unfold create_deployment
  rw [hval]
  simp only []
  rw [if_pos hquota]
  rw [halloc2]

/-- Witness for C4: the full ten-slot store with increment 100. -/
theorem allocate_port_range_exhausted_witness :
    allocate_port_range fullStore "a-app2" 100 = (none, fullStore)
    ∧ create_deployment cfgW envW fullStore paramsW =
        (false, "No available port range", fullStore) :=
  allocate_port_range_exhausted fullStore "a-app2" 100 10 cfgW envW paramsW (by decide)
    (by decide) (by decide) (by decide) (by decide) rfl

/-- C5 counterexample: the claim says a successful delete leaves neither the
Deployment row nor any PortAllocation row.  But the manager ignores the db
delete_deployment return value (it catches failures, rolls back and returns
False) and reports success regardless: when that transaction fails, the
manager returns True yet both rows remain. -/
theorem delete_success_rows_remain_counterexample :
    (delete_deployment ⟨true, false⟩ gapStore "d2").1 = true
    ∧ (get_deployment (delete_deployment ⟨true, false⟩ gapStore "d2").2.2 "d2").isSome = true
    ∧ ((delete_deployment ⟨true, false⟩ gapStore "d2").2.2).port_allocations.all
        (fun a => a.deployment_id != "d2") = false := by
  refine ⟨?_, ?_, ?_⟩
  · decide
  · decide
  · decide

/-- C5 (amended): a successful delete of an existing deployment whose db
delete transaction commits leaves neither the Deployment row nor any
PortAllocation row of that deployment; the database removes both in the one
delete operation.  When the db delete fails (a failure delete_deployment
catches, returning False — a value the manager ignores) the manager still
reports success and both rows remain. -/
theorem delete_removes_both_rows (env : DeleteEnv) (s : Store) (deployment_id : String)
    (hok : (delete_deployment env s deployment_id).1 = true)
    (hdb : env.db_delete_ok = true) :
    get_deployment (delete_deployment env s deployment_id).2.2 deployment_id = none
    ∧ ((delete_deployment env s deployment_id).2.2).port_allocations.all
        (fun a => a.deployment_id != deployment_id) = true := by
  unfold delete_deployment at hok ⊢
  cases h : get_deployment s deployment_id with
  | none =>
      rw [h] at hok
      simp at hok
  | some d =>
      rw [h] at hok
      simp only [] at hok ⊢
      by_cases hd : env.docker_down_ok = true
      · rw [if_pos hd]
        rw [db_delete_true _ _ _ hdb]
        refine ⟨get_db_delete_self s deployment_id, ?_⟩
        unfold db_delete_deployment
        rw [h]
        simp only []
        rw [List.all_eq_true]
        intro a ha
        exact (List.mem_filter.mp ha).2
      · rw [if_neg hd] at hok
        simp at hok

/-- Witness for C5 (amended): deleting d2 from the three-deployment store
with a committing db delete. -/
theorem delete_removes_both_rows_witness :
    get_deployment (delete_deployment ⟨true, true⟩ gapStore "d2").2.2 "d2" = none
    ∧ ((delete_deployment ⟨true, true⟩ gapStore "d2").2.2).port_allocations.all
        (fun a => a.deployment_id != "d2") = true :=
  delete_removes_both_rows ⟨true, true⟩ gapStore "d2" (by decide) (by decide)

/-- C6 counterexample: the claim says stop, start and restart all refuse when
the current status does not permit the transition.  But on a deployment whose
status is STOPPED — from which the state machine permits only start — both
stop and restart proceed and return success instead of refusing. -/
theorem stop_restart_unguarded_counterexample :
    (stop_deployment lcEnvW stoppedStore "u-app").1 = true
    ∧ (restart_deployment lcEnvW stoppedStore "u-app" true).1 = true := by
  constructor
  · decide
  · decide

/-- C6 (amended): only start checks the current status — it refuses with no
state change unless the status is STOPPED, and runs the health wait before
setting RUNNING or ERROR; stop and restart have no status guard and proceed
for any existing deployment. -/
theorem lifecycle_status_guards (env : LifecycleEnv) (s : Store) (i : String) (d : Deployment)
    (hget : get_deployment s i = some d) :
    (d.status ≠ DeploymentStatus.stopped →
      start_deployment env s i =
        (false, "Cannot start deployment in " ++ statusValue d.status ++ " state", s))
    ∧ (d.status = DeploymentStatus.stopped → env.docker_start_ok = true →
        (start_deployment env s i).1 = true
        ∧ get_deployment (start_deployment env s i).2.2 i =
            some (if env.wait_healthy then
                    { d with status := DeploymentStatus.running, last_action := "Started" }
                  else
                    { d with
                      status := DeploymentStatus.error
                      last_action := "Services failed to start" }))
    ∧ (env.docker_stop_ok = true → (stop_deployment env s i).1 = true)
    ∧ (env.docker_restart_ok = true → (restart_deployment env s i true).1 = true) := by
  have hdi : d.id = i := get_deployment_id s i d hget
  refine ⟨?_, ?_, ?_, ?_⟩
  · intro hst
    unfold start_deployment
    rw [hget]
    simp only []
    rw [if_pos (by simp [hst] : (d.status != DeploymentStatus.stopped) = true)]
  · intro hst hok
    unfold start_deployment
    rw [hget]
    simp only []
    rw [if_neg (by simp [hst] : ¬ (d.status != DeploymentStatus.stopped) = true), if_pos hok]
    refine ⟨rfl, ?_⟩
    by_cases hw : env.wait_healthy = true
    · rw [if_pos hw]
      have hg := get_save_self s
        { d with status := DeploymentStatus.running, last_action := "Started" }
      rw [hdi] at hg ⊢
      exact hg
    · rw [if_neg hw]
      have hg := get_save_self s
        { d with
          status := DeploymentStatus.error
          last_action := "Services failed to start" }
      rw [hdi] at hg ⊢
      exact hg
  · intro hok
    unfold stop_deployment
    rw [hget]
    simp only []
    rw [if_pos hok]
  · intro hok
    unfold restart_deployment
    rw [hget]
    simp only []
    rw [if_pos trivial, if_pos hok]

/-- Witness for C6 (amended) on the STOPPED deployment u-app. -/
theorem lifecycle_status_guards_witness :
    (({ mkDeployment "u-app" 18000 with status := DeploymentStatus.stopped } : Deployment).status
        ≠ DeploymentStatus.stopped →
      start_deployment lcEnvW stoppedStore "u-app" =
        (false, "Cannot start deployment in " ++
          statusValue ({ mkDeployment "u-app" 18000 with
            status := DeploymentStatus.stopped } : Deployment).status ++ " state",
          stoppedStore))
    ∧ (({ mkDeployment "u-app" 18000 with status := DeploymentStatus.stopped } : Deployment).status
          = DeploymentStatus.stopped → lcEnvW.docker_start_ok = true →
        (start_deployment lcEnvW stoppedStore "u-app").1 = true
        ∧ get_deployment (start_deployment lcEnvW stoppedStore "u-app").2.2 "u-app" =
            some (if lcEnvW.wait_healthy then
                    { ({ mkDeployment "u-app" 18000 with
                        status := DeploymentStatus.stopped } : Deployment) with
                      status := DeploymentStatus.running, last_action := "Started" }
                  else
                    { ({ mkDeployment "u-app" 18000 with
                        status := DeploymentStatus.stopped } : Deployment) with
                      status := DeploymentStatus.error
                      last_action := "Services failed to start" }))
    ∧ (lcEnvW.docker_stop_ok = true → (stop_deployment lcEnvW stoppedStore "u-app").1 = true)
    ∧ (lcEnvW.docker_restart_ok = true →
        (restart_deployment lcEnvW stoppedStore "u-app" true).1 = true) :=
  lifecycle_status_guards lcEnvW stoppedStore "u-app"
    { mkDeployment "u-app" 18000 with status := DeploymentStatus.stopped } (by decide)

/-- C10: when a RUNNING deployment's update runs its tasks successfully but
the health wait fails, the persisted record is ERROR with last_action
"Update failed - services not healthy", yet update_deployment still returns
success with "Updated to version <new_version>". -/
theorem update_returns_success_despite_unhealthy (env : UpdateEnv) (s : Store)
    (deployment_id new_version : String) (reset_db : Bool) (d : Deployment)
    (hget : get_deployment s deployment_id = some d)
    (hrun : d.status = DeploymentStatus.running)
    (hrepos : env.repos_yaml_ok = true)
    (htasks : ∀ t ∈ updateTasks reset_db, env.task_ok t = true)
    (hwait : env.wait_healthy = false) :
    (update_deployment env s deployment_id new_version reset_db).1 = true
    ∧ (update_deployment env s deployment_id new_version reset_db).2.1 =
        "Updated to version " ++ new_version
    ∧ (get_deployment (update_deployment env s deployment_id new_version reset_db).2.2
        deployment_id).isSome = true
    ∧ Option.all
        (fun r => r.status == DeploymentStatus.error
          && r.last_action == "Update failed - services not healthy"
          && r.openspp_version == new_version)
        (get_deployment (update_deployment env s deployment_id new_version reset_db).2.2
          deployment_id) = true := by
  have hdi : d.id = deployment_id := get_deployment_id s deployment_id d hget
  have hfind : (updateTasks reset_db).find? (fun t => !(env.task_ok t)) = none := by
    rw [List.find?_eq_none]
    intro t ht
    simp [htasks t ht]
  unfold update_deployment
  rw [hget]
  simp only []
  rw [if_neg (by simp [hrun] : ¬ (d.status != DeploymentStatus.running) = true)]
  rw [hrepos]
  simp only [Bool.not_true, Bool.false_eq_true, if_false]
  rw [hfind]
  simp only []
  rw [hwait]
  simp only [Bool.false_eq_true, if_false]
  refine ⟨trivial, trivial, ?_, ?_⟩
  · have hg := get_save_self (save_deployment s { d with status := DeploymentStatus.updating })
      { d with
        status := DeploymentStatus.error
        openspp_version := new_version
        last_action := "Update failed - services not healthy" }
    rw [hdi] at hg ⊢
    rw [hg]
    rfl
  · have hg := get_save_self (save_deployment s { d with status := DeploymentStatus.updating })
      { d with
        status := DeploymentStatus.error
        openspp_version := new_version
        last_action := "Update failed - services not healthy" }
    rw [hdi] at hg ⊢
    rw [hg]
    simp

/-- Witness for C10 on the RUNNING deployment r-app. -/
theorem update_returns_success_despite_unhealthy_witness :
    (update_deployment ⟨true, fun _ => true, false⟩ runStoreW "r-app" "17.1" false).1 = true
    ∧ (update_deployment ⟨true, fun _ => true, false⟩ runStoreW "r-app" "17.1" false).2.1 =
        "Updated to version " ++ "17.1"
    ∧ (get_deployment
        (update_deployment ⟨true, fun _ => true, false⟩ runStoreW "r-app" "17.1" false).2.2
        "r-app").isSome = true
    ∧ Option.all
        (fun r => r.status == DeploymentStatus.error
          && r.last_action == "Update failed - services not healthy"
          && r.openspp_version == "17.1")
        (get_deployment
          (update_deployment ⟨true, fun _ => true, false⟩ runStoreW "r-app" "17.1" false).2.2
          "r-app") = true :=
  update_returns_success_despite_unhealthy ⟨true, fun _ => true, false⟩ runStoreW "r-app"
    "17.1" false (mkDeployment "r-app" 18000) (by decide) (by decide) (by decide)
    (by decide) (by decide)

/-- The in-memory fetch-time map records the url that was just fetched. -/
theorem lookup_record_fetch (st : GitCacheState) (repo_url : String) (now : Int) :
    lookup_last_fetch (record_fetch st repo_url now) repo_url = some now := by
  unfold lookup_last_fetch record_fetch
  simp [List.find?]

theorem record_fetch_mirrors (st : GitCacheState) (repo_url : String) (now : Int) :
    (record_fetch st repo_url now).mirrors = st.mirrors := rfl

/-- C7: on an existing mirror, two update_or_clone_repo calls lying within
one TTL window of each other perform at most one network fetch — in
particular a second call right after a fetching first call does only the
local checkout — and a call made more than the TTL after the recorded fetch
performs a fetch again. -/
theorem git_cache_ttl_freshness (env : GitEnv) (st : GitCacheState) (repo_url : String)
    (t1 t2 t0 : Int) (f1 f2 : Bool) (s1 s2 : GitCacheState)
    (hmirror : st.mirrors.contains repo_url = true)
    (henv : env.fetch_ok = true)
    (h1 : update_or_clone_repo env st t1 repo_url = .ok (f1, s1))
    (h2 : update_or_clone_repo env s1 t2 repo_url = .ok (f2, s2))
    (hwindow : t2 - t1 ≤ 300) :
    ¬ (f1 = true ∧ f2 = true)
    ∧ (lookup_last_fetch st repo_url = some t0 → t1 - t0 > 300 → f1 = true) := by
  unfold update_or_clone_repo at h1
  rw [if_pos hmirror] at h1
  cases hsf1 : should_fetch st t1 repo_url with
  | false =>
      rw [hsf1] at h1
      simp only [Bool.not_false, Bool.and_true, Bool.and_self, if_true] at h1
      have hf1 : f1 = false := by
        have := h1
        simp only [Except.ok.injEq, Prod.mk.injEq] at this
        exact this.1.symm
      have hs1 : s1 = st := by
        have := h1
        simp only [Except.ok.injEq, Prod.mk.injEq] at this
        exact this.2.symm
      constructor
      · intro hc
        rw [hf1] at hc
        exact absurd hc.1 (by simp)
      · intro hlk hstale
        exfalso
        unfold should_fetch at hsf1
        rw [hlk] at hsf1
        simp only [decide_eq_false_iff_not] at hsf1
        exact hsf1 (by simpa [cache_ttl] using hstale)
  | true =>
      rw [hsf1] at h1
      simp only [Bool.not_true, Bool.and_false, Bool.false_eq_true, if_false, henv,
        if_true] at h1
      have hf1 : f1 = true := by
        have := h1
        simp only [Except.ok.injEq, Prod.mk.injEq] at this
        exact this.1.symm
      have hs1 : s1 = record_fetch st repo_url t1 := by
        have := h1
        simp only [Except.ok.injEq, Prod.mk.injEq] at this
        exact this.2.symm
      refine ⟨?_, fun _ _ => hf1⟩
      intro hc
      unfold update_or_clone_repo at h2
      rw [hs1] at h2
      rw [if_pos (by rw [record_fetch_mirrors]; exact hmirror)] at h2
      have hsf2 : should_fetch (record_fetch st repo_url t1) t2 repo_url = false := by
        unfold should_fetch
        rw [lookup_record_fetch]
        simp only [decide_eq_false_iff_not, not_lt, cache_ttl]
        linarith
      rw [hsf2] at h2
      simp only [Bool.not_false, Bool.and_true, Bool.and_self, if_true] at h2
      have hf2 : f2 = false := by
        simp only [Except.ok.injEq, Prod.mk.injEq] at h2
        exact h2.1.symm
      rw [hf2] at hc
      exact absurd hc.2 (by simp)

/-- Witness for C7: a mirror fetched at time 0, re-materialised at times 100
and 200 (one fetch), with staleness shown for the first call from a fetch
recorded at time -400. -/
theorem git_cache_ttl_freshness_witness :
    ¬ ((true : Bool) = true ∧ (false : Bool) = true)
    ∧ (lookup_last_fetch ⟨["u"], [("u", -400)]⟩ "u" = some (-400) → 100 - (-400) > 300 →
        (true : Bool) = true) :=
  git_cache_ttl_freshness ⟨true, true⟩ ⟨["u"], [("u", -400)]⟩ "u" 100 200 (-400) true false
    (record_fetch ⟨["u"], [("u", -400)]⟩ "u" 100)
    (record_fetch ⟨["u"], [("u", -400)]⟩ "u" 100)
    (by decide) (by decide) (by rfl) (by rfl) (by decide)

/-- C8 counterexample: with the fixed attempt count 3, a git command that
always fails with transient (network) error text is executed 4 times — the
retry wrapper raises after its 3 attempts and the except branch then runs the
command once more — so the command is not executed at most the fixed attempt
count of times. -/
theorem retry_extra_execution_counterexample :
    ¬ ((run_command_with_retry "git" alwaysNetworkFailure 3).2.1 ≤ 3) := by decide

/-- C8 (amended): a retriable executable with transiently-failing runs is
retried with exponential backoff (sleeps 2s then 4s) inside the wrapper and,
when all max_attempts = 3 attempts fail transiently, executed once more by
the except branch — 4 executions total, returning the last run's result; a
retriable executable whose first failure is not transient runs exactly once,
as does any non-retriable executable. -/
theorem run_command_with_retry_execution_counts (exe : String) (runs : Nat → CmdResult) :
    ((∀ i, transientFailure (runs i) = true) → retriable_commands.contains exe = true →
        run_command_with_retry exe runs 3 = (runs 3, 4, [2, 4]))
    ∧ (transientFailure (runs 0) = false → retriable_commands.contains exe = true →
        run_command_with_retry exe runs 3 = (runs 0, 1, []))
    ∧ (retriable_commands.contains exe = false →
        run_command_with_retry exe runs 3 = (runs 0, 1, [])) := by
  refine ⟨?_, ?_, ?_⟩
  · intro htr hret
    have e : attemptLoop runs 0 2 3 = (none, 3, [2, 4]) := by
      simp [attemptLoop, htr 0, htr 1, htr 2]
    unfold run_command_with_retry
    rw [hret, if_pos rfl, e]
  · intro hfirst hret
    have e : attemptLoop runs 0 2 3 = (some (runs 0), 1, []) := by
      simp [attemptLoop, hfirst]
    unfold run_command_with_retry
    rw [hret, if_pos rfl, e]
  · intro hnon
    unfold run_command_with_retry
    rw [hnon, if_neg (by simp)]

/-- Witness for C8 (amended): the always-network-failing git command and the
same command under a non-retriable executable name. -/
theorem run_command_with_retry_execution_counts_witness :
    ((∀ i, transientFailure (alwaysNetworkFailure i) = true) →
        retriable_commands.contains "git" = true →
        run_command_with_retry "git" alwaysNetworkFailure 3 =
          (alwaysNetworkFailure 3, 4, [2, 4]))
    ∧ (transientFailure (alwaysNetworkFailure 0) = false →
        retriable_commands.contains "git" = true →
        run_command_with_retry "git" alwaysNetworkFailure 3 = (alwaysNetworkFailure 0, 1, []))
    ∧ (retriable_commands.contains "git" = false →
        run_command_with_retry "git" alwaysNetworkFailure 3 =
          (alwaysNetworkFailure 0, 1, [])) :=
  run_command_with_retry_execution_counts "git" alwaysNetworkFailure

/-! ### Reconciliation lemmas -/

/-- Invariants of the create loop, for any per-item outcome: every deployment
is counted, the removed counter and htpasswd files are untouched, the config
set only grows, everything added is a live deployment id, and every
deployment whose write succeeds ends with a config. -/
theorem reconcileCreate_facts (env : NginxEnv) :
    ∀ (ds : List NDeploy) (st : NginxState) (r : ReconcileResults),
      (reconcileCreate env ds st r).2.checked = r.checked + ds.length
      ∧ (reconcileCreate env ds st r).2.removed = r.removed
      ∧ (reconcileCreate env ds st r).1.htpasswd_files = st.htpasswd_files
      ∧ (∀ c, c ∈ st.site_configs → c ∈ (reconcileCreate env ds st r).1.site_configs)
      ∧ (∀ c, c ∈ (reconcileCreate env ds st r).1.site_configs →
          c ∈ st.site_configs ∨ c ∈ ds.map (fun d => d.id))
      ∧ (∀ d ∈ ds, env.save_ok d.id = true →
          d.id ∈ (reconcileCreate env ds st r).1.site_configs) := by
  intro ds
  induction ds with
  | nil =>
      intro st r
      exact ⟨by simp [reconcileCreate], rfl, rfl, fun c hc => hc, fun c hc => Or.inl hc,
        by simp⟩
  | cons d rest ih =>
      intro st r
      cases hmem : st.site_configs.contains d.id with
      | true =>
          simp only [reconcileCreate, hmem, if_true]
          obtain ⟨ihc, ihrm, ihh, ihmono, ihbound, ihmem⟩ :=
            ih st { r with checked := r.checked + 1 }
          refine ⟨?_, ihrm, ihh, ihmono, ?_, ?_⟩
          · rw [ihc]
            simp only [List.length_cons]
            omega
          · intro c hc
            rcases ihbound c hc with h | h
            · exact Or.inl h
            · right
              rw [List.map_cons]
              exact List.mem_cons_of_mem _ h
          · intro d' hd' hok
            rcases List.mem_cons.mp hd' with rfl | hrest
            · exact ihmono _ (by simpa using hmem)
            · exact ihmem d' hrest hok
      | false =>
          cases hsv : env.save_ok d.id with
          | true =>
              simp only [reconcileCreate, hmem, hsv, if_true, Bool.false_eq_true, if_false]
              obtain ⟨ihc, ihrm, ihh, ihmono, ihbound, ihmem⟩ :=
                ih { st with site_configs := st.site_configs ++ [d.id] }
                  { r with checked := r.checked + 1, created := r.created + 1 }
              refine ⟨?_, ihrm, ihh, ?_, ?_, ?_⟩
              · rw [ihc]
                simp only [List.length_cons]
                omega
              · intro c hc
                exact ihmono c (List.mem_append_left _ hc)
              · intro c hc
                rcases ihbound c hc with h | h
                · rcases List.mem_append.mp h with h2 | h2
                  · exact Or.inl h2
                  · right
                    rw [List.map_cons, List.mem_singleton.mp h2]
                    exact List.mem_cons_self _ _
                · right
                  rw [List.map_cons]
                  exact List.mem_cons_of_mem _ h
              · intro d' hd' hok
                rcases List.mem_cons.mp hd' with rfl | hrest
                · exact ihmono _ (List.mem_append_right _ (List.mem_singleton.mpr rfl))
                · exact ihmem d' hrest hok
          | false =>
              simp only [reconcileCreate, hmem, hsv, Bool.false_eq_true, if_false]
              obtain ⟨ihc, ihrm, ihh, ihmono, ihbound, ihmem⟩ :=
                ih st
                  { r with
                    checked := r.checked + 1
                    errors := r.errors ++ [d.id ++ ": save failed"] }
              refine ⟨?_, ihrm, ihh, ihmono, ?_, ?_⟩
              · rw [ihc]
                simp only [List.length_cons]
                omega
              · intro c hc
                rcases ihbound c hc with h | h
                · exact Or.inl h
                · right
                  rw [List.map_cons]
                  exact List.mem_cons_of_mem _ h
              · intro d' hd' hok
                rcases List.mem_cons.mp hd' with rfl | hrest
                · rw [hok] at hsv
                  cases hsv
                · exact ihmem d' hrest hok

/-- With every write succeeding and distinct deployment ids, the create loop
creates exactly the missing configs and records no errors. -/
theorem reconcileCreate_count (env : NginxEnv) (hsave : ∀ x, env.save_ok x = true) :
    ∀ (ds : List NDeploy) (st : NginxState) (r : ReconcileResults),
      (ds.map (fun d => d.id)).Nodup →
      (reconcileCreate env ds st r).2.created =
        r.created + (ds.filter (fun d => !(st.site_configs.contains d.id))).length
      ∧ (reconcileCreate env ds st r).2.errors = r.errors := by
  intro ds
  induction ds with
  | nil => intro st r _; exact ⟨by simp [reconcileCreate], rfl⟩
  | cons d rest ih =>
      intro st r hnd
      rw [List.map_cons, List.nodup_cons] at hnd
      obtain ⟨hdn, hnd2⟩ := hnd
      cases hmem : st.site_configs.contains d.id with
      | true =>
          simp only [reconcileCreate, hmem, if_true]
          obtain ⟨ihc, ihe⟩ := ih st { r with checked := r.checked + 1 } hnd2
          refine ⟨?_, ihe⟩
          rw [ihc]
          have hmem2 : d.id ∈ st.site_configs := by simpa using hmem
          simp [List.filter_cons, hmem2]
      | false =>
          simp only [reconcileCreate, hmem, hsave d.id, if_true, Bool.false_eq_true, if_false]
          obtain ⟨ihc, ihe⟩ := ih { st with site_configs := st.site_configs ++ [d.id] }
            { r with checked := r.checked + 1, created := r.created + 1 } hnd2
          refine ⟨?_, ihe⟩
          rw [ihc]
          have hfeq : rest.filter
              (fun d2 => !((st.site_configs ++ [d.id]).contains d2.id)) =
              rest.filter (fun d2 => !(st.site_configs.contains d2.id)) := by
            apply List.filter_congr
            intro x hx
            have hxne : x.id ≠ d.id := by
              intro he
              exact hdn (by rw [← he]; exact List.mem_map_of_mem _ hx)
            simp [List.mem_append, hxne]
          rw [hfeq]
          simp only [List.filter_cons, hmem, Bool.not_false, if_true, List.length_cons]
          omega

/-- Invariants of the remove loop, for any per-item outcome: the checked and
created counters are untouched, the config set only shrinks, non-stale
entries survive, and every stale entry whose removal succeeds is gone. -/
theorem reconcileRemove_facts (env : NginxEnv) :
    ∀ (cs : List String) (st : NginxState) (r : ReconcileResults),
      (reconcileRemove env cs st r).2.checked = r.checked
      ∧ (reconcileRemove env cs st r).2.created = r.created
      ∧ (∀ x, x ∈ (reconcileRemove env cs st r).1.site_configs → x ∈ st.site_configs)
      ∧ (∀ x, x ∈ st.site_configs → x ∉ cs → x ∈ (reconcileRemove env cs st r).1.site_configs)
      ∧ (∀ x ∈ cs, env.remove_ok x = true →
          x ∉ (reconcileRemove env cs st r).1.site_configs) := by
  intro cs
  induction cs with
  | nil => intro st r; exact ⟨rfl, rfl, fun x hx => hx, fun x hx _ => hx, by simp⟩
  | cons c rest ih =>
      intro st r
      cases hrm : env.remove_ok c with
      | true =>
          simp only [reconcileRemove, hrm, if_true]
          obtain ⟨ihc, ihcr, ihdec, ihpres, ihrem⟩ :=
            ih (remove_nginx_config st c) { r with removed := r.removed + 1 }
          refine ⟨ihc, ihcr, ?_, ?_, ?_⟩
          · intro x hx
            exact List.mem_of_mem_filter (ihdec x hx)
          · intro x hx hnotin
            apply ihpres
            · refine List.mem_filter.mpr ⟨hx, ?_⟩
              have hne : x ≠ c := fun he => hnotin (by rw [he]; exact List.mem_cons_self _ _)
              simp [hne]
            · intro hxr
              exact hnotin (List.mem_cons_of_mem _ hxr)
          · intro x hx hok
            rcases List.mem_cons.mp hx with rfl | hxr
            · intro hfin
              have hmem2 := ihdec _ hfin
              have := (List.mem_filter.mp hmem2).2
              simp at this
            · exact ihrem x hxr hok
      | false =>
          simp only [reconcileRemove, hrm, Bool.false_eq_true, if_false]
          obtain ⟨ihc, ihcr, ihdec, ihpres, ihrem⟩ :=
            ih st { r with errors := r.errors ++ ["Failed to remove config for " ++ c] }
          refine ⟨ihc, ihcr, ihdec, ?_, ?_⟩
          · intro x hx hnotin
            exact ihpres x hx (fun hxr => hnotin (List.mem_cons_of_mem _ hxr))
          · intro x hx hok
            rcases List.mem_cons.mp hx with rfl | hxr
            · rw [hok] at hrm
              cases hrm
            · exact ihrem x hxr hok

/-- With every removal succeeding, the remove loop removes one config per
stale entry and records no errors. -/
theorem reconcileRemove_count (env : NginxEnv) (hrem : ∀ x, env.remove_ok x = true) :
    ∀ (cs : List String) (st : NginxState) (r : ReconcileResults),
      (reconcileRemove env cs st r).2.removed = r.removed + cs.length
      ∧ (reconcileRemove env cs st r).2.errors = r.errors := by
  intro cs
  induction cs with
  | nil => intro st r; exact ⟨by simp [reconcileRemove], rfl⟩
  | cons c rest ih =>
      intro st r
      simp only [reconcileRemove, hrem c, if_true]
      obtain ⟨ihr, ihe⟩ := ih (remove_nginx_config st c) { r with removed := r.removed + 1 }
      refine ⟨?_, ihe⟩
      rw [ihr]
      simp only [List.length_cons]
      omega

/-- Invariants of the htpasswd loop: site configs are untouched, the
credential set only grows, and every deployment with a secret whose write
succeeds ends with a credential file. -/
theorem reconcileHtpasswd_facts (env : NginxEnv) :
    ∀ (ds : List NDeploy) (st : NginxState),
      (reconcileHtpasswd env ds st).site_configs = st.site_configs
      ∧ (∀ x, x ∈ st.htpasswd_files → x ∈ (reconcileHtpasswd env ds st).htpasswd_files)
      ∧ (∀ d ∈ ds, d.auth_password ≠ "" → env.htpasswd_ok d.id = true →
          d.id ∈ (reconcileHtpasswd env ds st).htpasswd_files) := by
  intro ds
  induction ds with
  | nil => intro st; exact ⟨rfl, fun x hx => hx, by simp⟩
  | cons d rest ih =>
      intro st
      by_cases hcnd : (d.auth_password != "" && !(st.htpasswd_files.contains d.id)) = true
      · cases hok : env.htpasswd_ok d.id with
        | true =>
            simp only [reconcileHtpasswd, hcnd, hok, if_true]
            obtain ⟨ihs, ihmono, ihmem⟩ :=
              ih { st with htpasswd_files := st.htpasswd_files ++ [d.id] }
            refine ⟨ihs, ?_, ?_⟩
            · intro x hx
              exact ihmono x (List.mem_append_left _ hx)
            · intro d2 hd2 hpw hok2
              rcases List.mem_cons.mp hd2 with rfl | hrest
              · exact ihmono _ (List.mem_append_right _ (List.mem_singleton.mpr rfl))
              · exact ihmem d2 hrest hpw hok2
        | false =>
            simp only [reconcileHtpasswd, hcnd, hok, if_true, Bool.false_eq_true, if_false]
            obtain ⟨ihs, ihmono, ihmem⟩ := ih st
            refine ⟨ihs, ihmono, ?_⟩
            intro d2 hd2 hpw hok2
            rcases List.mem_cons.mp hd2 with rfl | hrest
            · rw [hok2] at hok
              cases hok
            · exact ihmem d2 hrest hpw hok2
      · have hcnd2 : (d.auth_password != "" && !(st.htpasswd_files.contains d.id)) = false :=
          Bool.eq_false_iff.mpr hcnd
        simp only [reconcileHtpasswd, hcnd2, Bool.false_eq_true, if_false]
        obtain ⟨ihs, ihmono, ihmem⟩ := ih st
        refine ⟨ihs, ihmono, ?_⟩
        intro d2 hd2 hpw hok2
        rcases List.mem_cons.mp hd2 with rfl | hrest
        · have hin : d2.id ∈ st.htpasswd_files := by
            simp [hpw] at hcnd2
            exact hcnd2
          exact ihmono _ hin
        · exact ihmem d2 hrest hpw hok2

/-- C9: reconciliation completeness.  With M live deployments and K stale
configs and all writes succeeding: every deployment is checked, a config is
created for exactly the deployments missing one, exactly the K stale configs
are removed (none survive, nothing live is lost), credential files exist
afterwards for every deployment with a stored secret, and no errors are
collected; and for any per-item outcome the sweep still visits every
deployment and a failing item does not stop the others from being
reconciled. -/
theorem reconcile_nginx_configs_complete (env : NginxEnv) (st : NginxState)
    (ds : List NDeploy)
    (hids : (ds.map (fun d => d.id)).Nodup)
    (hsave : ∀ x, env.save_ok x = true)
    (hremove : ∀ x, env.remove_ok x = true)
    (hhtp : ∀ x, env.htpasswd_ok x = true) :
    (reconcile_nginx_configs env st ds).2.checked = ds.length
    ∧ (reconcile_nginx_configs env st ds).2.created =
        (ds.filter (fun d => !(st.site_configs.contains d.id))).length
    ∧ (reconcile_nginx_configs env st ds).2.removed =
        (st.site_configs.filter (fun c => !((ds.map (fun d => d.id)).contains c))).length
    ∧ (reconcile_nginx_configs env st ds).2.errors = []
    ∧ (∀ d ∈ ds, d.id ∈ (reconcile_nginx_configs env st ds).1.site_configs)
    ∧ (∀ c ∈ (reconcile_nginx_configs env st ds).1.site_configs, c ∈ ds.map (fun d => d.id))
    ∧ (∀ d ∈ ds, d.auth_password ≠ "" →
        d.id ∈ (reconcile_nginx_configs env st ds).1.htpasswd_files)
    ∧ (∀ env2 : NginxEnv,
        (reconcile_nginx_configs env2 st ds).2.checked = ds.length
        ∧ (∀ d ∈ ds, env2.save_ok d.id = true →
            d.id ∈ (reconcile_nginx_configs env2 st ds).1.site_configs)) := by
  have key : ∀ env2 : NginxEnv,
      (reconcile_nginx_configs env2 st ds).2.checked = ds.length
      ∧ (∀ d ∈ ds, env2.save_ok d.id = true →
          d.id ∈ (reconcile_nginx_configs env2 st ds).1.site_configs) := by
    intro env2
    unfold reconcile_nginx_configs
    simp only []
    obtain ⟨h1checked, h1removed, h1htp, h1mono, h1bound, h1mem⟩ :=
      reconcileCreate_facts env2 ds st ⟨0, 0, 0, 0, []⟩
    obtain ⟨h2checked, h2created, h2dec, h2pres, h2rem⟩ :=
      reconcileRemove_facts env2
        ((st.site_configs).filter (fun c => !((ds.map (fun d => d.id)).contains c)))
        (reconcileCreate env2 ds st ⟨0, 0, 0, 0, []⟩).1
        (reconcileCreate env2 ds st ⟨0, 0, 0, 0, []⟩).2
    obtain ⟨h3sites, h3mono, h3mem⟩ :=
      reconcileHtpasswd_facts env2 ds
        (reconcileRemove env2
          ((st.site_configs).filter (fun c => !((ds.map (fun d => d.id)).contains c)))
          (reconcileCreate env2 ds st ⟨0, 0, 0, 0, []⟩).1
          (reconcileCreate env2 ds st ⟨0, 0, 0, 0, []⟩).2).1
    constructor
    · rw [h2checked, h1checked]
      simp
    · intro d hd hok
      rw [h3sites]
      apply h2pres
      · exact h1mem d hd hok
      · intro hstale
        have hpred := (List.mem_filter.mp hstale).2
        have hdin : d.id ∈ ds.map (fun d => d.id) := List.mem_map_of_mem _ hd
        simp [hdin] at hpred
  obtain ⟨h1checked, h1removed, h1htp, h1mono, h1bound, h1mem⟩ :=
    reconcileCreate_facts env ds st ⟨0, 0, 0, 0, []⟩
  obtain ⟨h1created, h1errors⟩ := reconcileCreate_count env hsave ds st ⟨0, 0, 0, 0, []⟩ hids
  obtain ⟨h2checked, h2created, h2dec, h2pres, h2rem⟩ :=
    reconcileRemove_facts env
      ((st.site_configs).filter (fun c => !((ds.map (fun d => d.id)).contains c)))
      (reconcileCreate env ds st ⟨0, 0, 0, 0, []⟩).1
      (reconcileCreate env ds st ⟨0, 0, 0, 0, []⟩).2
  obtain ⟨h2removed, h2errors⟩ :=
    reconcileRemove_count env hremove
      ((st.site_configs).filter (fun c => !((ds.map (fun d => d.id)).contains c)))
      (reconcileCreate env ds st ⟨0, 0, 0, 0, []⟩).1
      (reconcileCreate env ds st ⟨0, 0, 0, 0, []⟩).2
  obtain ⟨h3sites, h3mono, h3mem⟩ :=
    reconcileHtpasswd_facts env ds
      (reconcileRemove env
        ((st.site_configs).filter (fun c => !((ds.map (fun d => d.id)).contains c)))
        (reconcileCreate env ds st ⟨0, 0, 0, 0, []⟩).1
        (reconcileCreate env ds st ⟨0, 0, 0, 0, []⟩).2).1
  refine ⟨(key env).1, ?_, ?_, ?_, fun d hd => (key env).2 d hd (hsave d.id), ?_, ?_, key⟩
  · show (reconcile_nginx_configs env st ds).2.created = _
    unfold reconcile_nginx_configs
    simp only []
    rw [h2created, h1created]
    simp
  · show (reconcile_nginx_configs env st ds).2.removed = _
    unfold reconcile_nginx_configs
    simp only []
    rw [h2removed, h1removed]
    simp
  · show (reconcile_nginx_configs env st ds).2.errors = []
    unfold reconcile_nginx_configs
    simp only []
    rw [h2errors, h1errors]
  · show ∀ c ∈ (reconcile_nginx_configs env st ds).1.site_configs, c ∈ ds.map (fun d => d.id)
    unfold reconcile_nginx_configs
    simp only []
    intro c hc
    rw [h3sites] at hc
    have hcp1 := h2dec c hc
    rcases h1bound c hcp1 with hin | hin
    · by_cases hcid : c ∈ ds.map (fun d => d.id)
      · exact hcid
      · exfalso
        have hcstale : c ∈ (st.site_configs).filter
            (fun c => !((ds.map (fun d => d.id)).contains c)) :=
          List.mem_filter.mpr ⟨hin, by simp [hcid]⟩
        exact h2rem c hcstale (hremove c) hc
    · exact hin
  · show ∀ d ∈ ds, d.auth_password ≠ "" →
        d.id ∈ (reconcile_nginx_configs env st ds).1.htpasswd_files
    unfold reconcile_nginx_configs
    simp only []
    intro d hd hpw
    exact h3mem d hd hpw (hhtp d.id)

/-- Witness for C9: deployments a (with secret) and b, existing configs for a
and the stale stale1, no credential files. -/
theorem reconcile_nginx_configs_complete_witness :
    (reconcile_nginx_configs nginxEnvW nginxStateW nginxDeploysW).2.checked =
      nginxDeploysW.length
    ∧ (reconcile_nginx_configs nginxEnvW nginxStateW nginxDeploysW).2.created =
        (nginxDeploysW.filter
          (fun d => !(nginxStateW.site_configs.contains d.id))).length
    ∧ (reconcile_nginx_configs nginxEnvW nginxStateW nginxDeploysW).2.removed =
        (nginxStateW.site_configs.filter
          (fun c => !((nginxDeploysW.map (fun d => d.id)).contains c))).length
    ∧ (reconcile_nginx_configs nginxEnvW nginxStateW nginxDeploysW).2.errors = []
    ∧ (∀ d ∈ nginxDeploysW,
        d.id ∈ (reconcile_nginx_configs nginxEnvW nginxStateW nginxDeploysW).1.site_configs)
    ∧ (∀ c ∈ (reconcile_nginx_configs nginxEnvW nginxStateW nginxDeploysW).1.site_configs,
        c ∈ nginxDeploysW.map (fun d => d.id))
    ∧ (∀ d ∈ nginxDeploysW, d.auth_password ≠ "" →
        d.id ∈ (reconcile_nginx_configs nginxEnvW nginxStateW nginxDeploysW).1.htpasswd_files)
    ∧ (∀ env2 : NginxEnv,
        (reconcile_nginx_configs env2 nginxStateW nginxDeploysW).2.checked =
          nginxDeploysW.length
        ∧ (∀ d ∈ nginxDeploysW, env2.save_ok d.id = true →
            d.id ∈ (reconcile_nginx_configs env2 nginxStateW nginxDeploysW).1.site_configs)) :=
  reconcile_nginx_configs_complete nginxEnvW nginxStateW nginxDeploysW (by decide)
    (fun _ => rfl) (fun _ => rfl) (fun _ => rfl)

end OpenSPP
